import Mathlib

/- Verification development for the go-preter repository: a shallow embedding of
src/parser/parser.go and src/ast/ast.go (the authoritative, current versions of the
two files), together with theorems settling the specification claims.

Modelling conventions:
- Go machine integers are modelled as Int with explicit clamping where Go clamps.
- Go interface values that may be nil are modelled as Option, except the
  ast.Expression interface, which gets an explicit nil constructor (Expression.nilE)
  so that all recursion stays structural.
- The token package and the lexer are not under src/; the token kinds and the
  token-source behaviour are modelled from the spec (sections 3, 4.1 and 6), using
  the Go convention that TokenType is a string.
- Functions that the Go code can fail to terminate on (the skip loop in
  parseReturnStatement) are given a fuel parameter; a none result means the fuel
  ran out.  Go panics (nil dereference in the String methods) are modelled as
  Option.none results of the reconstruction functions. -/

/-- Modelled from the spec: the token package is not under src/.  Go declares
`type TokenType string`; we mirror that. -/
abbrev TokenType := String

/-- A lexical token: a kind and the literal source text (spec section 3). -/
structure Token where
  type : TokenType
  literal : String
deriving DecidableEq

namespace token

/-- Modelled from the spec: token kind constants of the missing token package.
Word-like kinds use their upper-case name, operator and delimiter kinds use their
symbol, following the Go Monkey-style convention the parser diagnostics rely on. -/
def EOF : TokenType := "EOF"

def IDENT : TokenType := "IDENT"

def INT : TokenType := "INT"

def ASSIGN : TokenType := "="

def PLUS : TokenType := "+"

def MINUS : TokenType := "-"

def BANG : TokenType := "!"

def ASTERISK : TokenType := "*"

def SLASH : TokenType := "/"

def LT : TokenType := "<"

def GT : TokenType := ">"

def EQ : TokenType := "=="

def NOT_EQ : TokenType := "!="

def COMMA : TokenType := ","

def SEMICOLON : TokenType := ";"

def LPAREN : TokenType := "("

def RPAREN : TokenType := ")"

def FUNCTION : TokenType := "FUNCTION"

def LET : TokenType := "LET"

def TRUE : TokenType := "TRUE"

def FALSE : TokenType := "FALSE"

def IF : TokenType := "IF"

def ELSE : TokenType := "ELSE"

def RETURN : TokenType := "RETURN"

end token

/-- ast.Identifier (ast.go): token plus value string. -/
structure Identifier where
  tok : Token
  value : String
deriving DecidableEq

/-- The ast.Expression interface.  A Go variable of this interface type can hold
nil; the nilE constructor is that nil interface value.  Concrete variants follow
ast.go: Identifier, IntegerLiteral, Boolean, PrefixExpression, InfixExpression. -/
inductive Expression where
  | nilE
  | ident (tok : Token) (value : String)
  | intLit (tok : Token) (value : Int)
  | boolean (tok : Token) (value : Bool)
  | prefixE (tok : Token) (operator : String) (right : Expression)
  | infixE (tok : Token) (left : Expression) (operator : String) (right : Expression)
deriving DecidableEq

/-- ast.LetStatement: Token, Name (a pointer, nil until assigned), Value
(an interface, nil when no value was ever parsed). -/
structure LetStmt where
  tok : Token
  name : Option Identifier
  value : Expression
deriving DecidableEq

/-- ast.ReturnStatement: Token and ReturnValue (interface, possibly nil). -/
structure ReturnStmt where
  tok : Token
  returnValue : Expression
deriving DecidableEq

/-- ast.ExpressionStatement: Token and Expression (interface, possibly nil). -/
structure ExpressionStmt where
  tok : Token
  expression : Expression
deriving DecidableEq

/-- The ast.Statement interface value as returned by parseStatement.  Every
return path of parseStatement converts a concrete typed pointer
(`*ast.LetStatement`, `*ast.ReturnStatement`, `*ast.ExpressionStatement`) to the
interface, so the interface always carries a dynamic type; the pointer inside may
still be nil for let and return (Option).  parseExpressionStatement always
returns the address of a fresh value, hence no Option on exprS. -/
inductive Statement where
  | letS (ptr : Option LetStmt)
  | returnS (ptr : Option ReturnStmt)
  | exprS (st : ExpressionStmt)
deriving DecidableEq

/-- ast.Program: the root node, an ordered list of statements. -/
structure Program where
  statements : List Statement
deriving DecidableEq

/-- Parser state (parser.go struct Parser): the not-yet-delivered tokens of the
token source, the two-token lookahead window, and the diagnostics list. -/
structure ParserState where
  tokens : List Token
  curToken : Token
  peekToken : Token
  errors : List String
deriving DecidableEq

/-- Modelled from the spec (section 4.1): the token source yields the stream
tokens in order and then the end-of-input sentinel; asking again after the
sentinel keeps yielding the sentinel (Token with kind EOF and empty literal). -/
def lexHead : List Token → Token
  | [] => ⟨token.EOF, ""⟩
  | t :: _ => t

/-- The remaining stream after one token has been delivered. -/
def lexTail : List Token → List Token
  | [] => []
  | _ :: ts => ts

/-- nextToken (parser.go): cur := peek; peek := l.NextToken(). -/
def nextToken (s : ParserState) : ParserState :=
  ⟨lexTail s.tokens, s.peekToken, lexHead s.tokens, s.errors⟩

/-- New (parser.go): fresh parser with empty diagnostics and zero-valued
lookahead tokens, advanced twice to prime current and peek. -/
def initParser (toks : List Token) : ParserState :=
  nextToken (nextToken ⟨toks, ⟨"", ""⟩, ⟨"", ""⟩, []⟩)

/-- Appending one diagnostic (Go append on the errors slice). -/
def pushError (s : ParserState) (msg : String) : ParserState :=
  ⟨s.tokens, s.curToken, s.peekToken, s.errors ++ [msg]⟩

/-- curTokenIs (parser.go). -/
def curTokenIs (s : ParserState) (t : TokenType) : Bool :=
  s.curToken.type == t

/-- peekTokenIs (parser.go). -/
def peekTokenIs (s : ParserState) (t : TokenType) : Bool :=
  s.peekToken.type == t

/-- The message built by peekError (parser.go):
fmt.Sprintf of "Expected token %s -- Got %s". -/
def peekErrorMsg (t : TokenType) (s : ParserState) : String :=
  "Expected token " ++ t ++ " -- Got " ++ s.peekToken.type

/-- peekError (parser.go): append the mismatch diagnostic. -/
def peekError (t : TokenType) (s : ParserState) : ParserState :=
  pushError s (peekErrorMsg t s)

/-- expectPeek (parser.go): advance on a kind match and report success,
otherwise record a diagnostic and report failure without advancing. -/
def expectPeek (t : TokenType) (s : ParserState) : ParserState × Bool :=
  if peekTokenIs s t then (nextToken s, true) else (peekError t s, false)

/-- The precedence ordinals from the iota block in parser.go
(the blank first ordinal is 0). -/
def LOWEST : Nat := 1

def EQUALS : Nat := 2

def LESSGREATER : Nat := 3

def SUM : Nat := 4

def PRODUCT : Nat := 5

/-- The ordinal named PREFIX in the source. -/
def PREFIX_PREC : Nat := 6

def CALL : Nat := 7

/-- The precedences map (parser.go); a Go map lookup yields the value and an
ok flag, modelled as Option. -/
def precedences (t : TokenType) : Option Nat :=
  if t = token.EQ then some EQUALS
  else if t = token.NOT_EQ then some EQUALS
  else if t = token.LT then some LESSGREATER
  else if t = token.GT then some LESSGREATER
  else if t = token.PLUS then some SUM
  else if t = token.MINUS then some SUM
  else if t = token.SLASH then some PRODUCT
  else if t = token.ASTERISK then some PRODUCT
  else none

/-- The key set of the precedences map. -/
def precKeys : List TokenType :=
  [token.EQ, token.NOT_EQ, token.LT, token.GT,
   token.PLUS, token.MINUS, token.SLASH, token.ASTERISK]

/-- peekPrecedence (parser.go): table value of the peek token kind, LOWEST when
absent. -/
def peekPrecedence (s : ParserState) : Nat :=
  match precedences s.peekToken.type with
  | some p => p
  | none => LOWEST

/-- curPrecedence (parser.go): table value of the current token kind, LOWEST
when absent. -/
def curPrecedence (s : ParserState) : Nat :=
  match precedences s.curToken.type with
  | some p => p
  | none => LOWEST

/-- Tags for the prefix parse routines registered in New (parser.go).  The Go
code stores method values in a map; registration is by token kind, so the map is
equivalent to this defunctionalised table. -/
inductive PrefixFn where
  | parseIdentifierFn
  | parseIntegerLiteralFn
  | parsePrefixExpressionFn
  | parseBooleanFn
deriving DecidableEq

/-- Tags for the infix parse routines registered in New (parser.go); every
registered kind maps to parseInfixExpression. -/
inductive InfixFn where
  | parseInfixExpressionFn
deriving DecidableEq

/-- The prefixParseFns map as populated by New (parser.go lines 91-104):
IDENT, INT, BANG, MINUS, TRUE, FALSE and nothing else. -/
def prefixParseFns (t : TokenType) : Option PrefixFn :=
  if t = token.IDENT then some PrefixFn.parseIdentifierFn
  else if t = token.INT then some PrefixFn.parseIntegerLiteralFn
  else if t = token.BANG then some PrefixFn.parsePrefixExpressionFn
  else if t = token.MINUS then some PrefixFn.parsePrefixExpressionFn
  else if t = token.TRUE then some PrefixFn.parseBooleanFn
  else if t = token.FALSE then some PrefixFn.parseBooleanFn
  else none

/-- The inflixParseFns map as populated by New (parser.go, source spelling kept):
EQ, NOT_EQ, LT, GT, PLUS, MINUS, SLASH, ASTERISK. -/
def inflixParseFns (t : TokenType) : Option InfixFn :=
  if t = token.EQ then some InfixFn.parseInfixExpressionFn
  else if t = token.NOT_EQ then some InfixFn.parseInfixExpressionFn
  else if t = token.LT then some InfixFn.parseInfixExpressionFn
  else if t = token.GT then some InfixFn.parseInfixExpressionFn
  else if t = token.PLUS then some InfixFn.parseInfixExpressionFn
  else if t = token.MINUS then some InfixFn.parseInfixExpressionFn
  else if t = token.SLASH then some InfixFn.parseInfixExpressionFn
  else if t = token.ASTERISK then some InfixFn.parseInfixExpressionFn
  else none

/-- noPrefixParseFnError (parser.go): record the missing-handler diagnostic. -/
def noPrefixParseFnError (t : TokenType) (s : ParserState) : ParserState :=
  pushError s ("no prefix parse function for " ++ t ++ " found")

/-- Numeric value of one digit character, as used by the Go strconv digit
scanner (0-9, then letters for higher bases). -/
def digitVal (c : Char) : Option Nat :=
  if c ≥ '0' ∧ c ≤ '9' then some (c.toNat - Char.toNat '0')
  else if c ≥ 'a' ∧ c ≤ 'z' then some (c.toNat - Char.toNat 'a' + 10)
  else if c ≥ 'A' ∧ c ≤ 'Z' then some (c.toNat - Char.toNat 'A' + 10)
  else none

/-- Accumulate the value of a digit run in the given base; none on a character
that is not a digit of the base. -/
def digitsValAux (base : Nat) : List Char → Nat → Option Nat
  | [], acc => some acc
  | c :: cs, acc =>
    match digitVal c with
    | some d => if d < base then digitsValAux base cs (acc * base + d) else none
    | none => none

/-- Modelled from the spec: the Go standard library call
strconv.ParseInt(s, 0, 64) used by parseIntegerLiteral (strconv is outside the
repository).  Base 0 means an optional sign, then a 0x/0o/0b prefix or a leading
0 for octal, else decimal.  The result pairs the parsed value with an ok flag
(err == nil); on a syntax error Go returns 0, on a range error the clamped
64-bit bound.  Digit-group underscores are not modelled (the lexer only emits
plain digit runs). -/
def strconvParseInt (str : String) : Int × Bool :=
  let cs := str.data
  let signed : Bool × List Char :=
    match cs with
    | '+' :: r => (false, r)
    | '-' :: r => (true, r)
    | r => (false, r)
  let based : Nat × List Char :=
    match signed.2 with
    | '0' :: 'x' :: r => (16, r)
    | '0' :: 'X' :: r => (16, r)
    | '0' :: 'o' :: r => (8, r)
    | '0' :: 'O' :: r => (8, r)
    | '0' :: 'b' :: r => (2, r)
    | '0' :: 'B' :: r => (2, r)
    | '0' :: c :: r => (8, '0' :: c :: r)
    | r => (10, r)
  match based.2 with
  | [] => (0, false)
  | _ =>
    match digitsValAux based.1 based.2 0 with
    | none => (0, false)
    | some n =>
      if signed.1 then
        if n ≤ 2 ^ 63 then (-(n : Int), true) else (-(2 ^ 63 : Int), false)
      else
        if n ≤ 2 ^ 63 - 1 then ((n : Int), true) else ((2 ^ 63 - 1 : Int), false)

/-- The %q rendering used in the integer-conversion diagnostic; escaping inside
the literal is not modelled (the lexer only emits digit runs). -/
def goQuote (s : String) : String :=
  "\"" ++ s ++ "\""

/-- parseIntegerLiteral (parser.go): build the IntegerLiteral from the current
token, record a diagnostic when the conversion fails, keep the converted value
(the Go zero value 0 on a syntax error). -/
def parseIntegerLiteral (s : ParserState) : Expression × ParserState :=
  let r := strconvParseInt s.curToken.literal
  let s1 :=
    if r.2 then s
    else pushError s ("failed to parse " ++ goQuote s.curToken.literal ++ " to integer")
  (Expression.intLit s.curToken r.1, s1)

/-- parseIdentifier (parser.go): Identifier node from the current token. -/
def parseIdentifier (s : ParserState) : Expression :=
  Expression.ident s.curToken s.curToken.literal

/-- parseBoolean (parser.go): Boolean node, value is curTokenIs(TRUE). -/
def parseBoolean (s : ParserState) : Expression :=
  Expression.boolean s.curToken (curTokenIs s token.TRUE)

/-- Selector for the two mutually recursive pieces of the Pratt engine
(parser.go parseExpression): the whole routine, and its precedence-climbing
while loop carrying the accumulated left expression. -/
inductive PrattCall where
  | exprCall (prec : Nat)
  | loopCall (prec : Nat) (left : Expression)

/-- The Pratt engine (parser.go parseExpression together with the prefix and
infix routines it dispatches to), written as one fuel-indexed function so that
all recursion is structural.  A none result means the fuel ran out; the Go code
itself always terminates here because every loop iteration and every recursive
call consumes tokens.  The exprCall case is parseExpression: look up the prefix
routine for the current token kind (recording the no-prefix diagnostic and
yielding the nil expression when absent), run it, then enter the loop.  The
loopCall case is the while loop: while the peek token is not a semicolon and the
given precedence is strictly below the peek precedence, and an infix routine
exists for the peek kind, advance and run parseInfixExpression, else stop. -/
def prattStep : Nat → PrattCall → ParserState → Option (Expression × ParserState)
  | 0, _, _ => none
  | Nat.succ fuel, PrattCall.exprCall prec, s =>
    match prefixParseFns s.curToken.type with
    | none => some (Expression.nilE, noPrefixParseFnError s.curToken.type s)
    | some PrefixFn.parseIdentifierFn =>
      prattStep fuel (PrattCall.loopCall prec (parseIdentifier s)) s
    | some PrefixFn.parseIntegerLiteralFn =>
      let r := parseIntegerLiteral s
      prattStep fuel (PrattCall.loopCall prec r.1) r.2
    | some PrefixFn.parseBooleanFn =>
      prattStep fuel (PrattCall.loopCall prec (parseBoolean s)) s
    | some PrefixFn.parsePrefixExpressionFn =>
      let tok := s.curToken
      let s1 := nextToken s
      match prattStep fuel (PrattCall.exprCall PREFIX_PREC) s1 with
      | none => none
      | some (right, s2) =>
        prattStep fuel (PrattCall.loopCall prec (Expression.prefixE tok tok.literal right)) s2
  | Nat.succ fuel, PrattCall.loopCall prec left, s =>
    if ¬ peekTokenIs s token.SEMICOLON ∧ prec < peekPrecedence s then
      match inflixParseFns s.peekToken.type with
      | none => some (left, s)
      | some InfixFn.parseInfixExpressionFn =>
        let s1 := nextToken s
        let tok := s1.curToken
        let precedence := curPrecedence s1
        let s2 := nextToken s1
        match prattStep fuel (PrattCall.exprCall precedence) s2 with
        | none => none
        | some (right, s3) =>
          prattStep fuel
            (PrattCall.loopCall prec (Expression.infixE tok left tok.literal right)) s3
    else some (left, s)

/-- parseExpression (parser.go): the Pratt engine entry point. -/
def parseExpression (fuel : Nat) (prec : Nat) (s : ParserState) :
    Option (Expression × ParserState) :=
  prattStep fuel (PrattCall.exprCall prec) s

/-- parseExpressionStatement (parser.go): wrap the expression parsed at LOWEST,
consuming a trailing semicolon only when one is peeked. -/
def parseExpressionStatement (fuel : Nat) (s : ParserState) :
    Option (ExpressionStmt × ParserState) :=
  let tok := s.curToken
  match parseExpression fuel LOWEST s with
  | none => none
  | some (e, s1) =>
    let s2 := if peekTokenIs s1 token.SEMICOLON then nextToken s1 else s1
    some (⟨tok, e⟩, s2)

/-- parseLetStatement (parser.go lines 207-223): require IDENT then ASSIGN via
expectPeek (returning a nil pointer on failure); the value expression is never
parsed (the TODO in the source): if the current token (always the assign sign at
this point) is not a semicolon, advance exactly once, and return with the Value
field still nil. -/
def parseLetStatement (s : ParserState) : Option LetStmt × ParserState :=
  let tok := s.curToken
  let r1 := expectPeek token.IDENT s
  if !r1.2 then (none, r1.1) else
  let s1 := r1.1
  let name : Identifier := ⟨s1.curToken, s1.curToken.literal⟩
  let r2 := expectPeek token.ASSIGN s1
  if !r2.2 then (none, r2.1) else
  let s2 := r2.1
  let s3 := if curTokenIs s2 token.SEMICOLON then s2 else nextToken s2
  (some ⟨tok, some name, Expression.nilE⟩, s3)

/-- The skip loop of parseReturnStatement (parser.go lines 233-235): advance
until the current token is a semicolon.  Fuel-indexed; none means the loop did
not finish within the fuel (the Go loop runs forever when the stream holds no
semicolon, because the exhausted token source keeps yielding EOF). -/
def skipToSemicolon : Nat → ParserState → Option ParserState
  | 0, _ => none
  | Nat.succ fuel, s =>
    if curTokenIs s token.SEMICOLON then some s
    else skipToSemicolon fuel (nextToken s)

/-- parseReturnStatement (parser.go lines 225-237): remember the return token,
advance, skip to the semicolon, and return a Return node whose ReturnValue was
never assigned (nil). -/
def parseReturnStatement (fuel : Nat) (s : ParserState) :
    Option (Option ReturnStmt × ParserState) :=
  let tok := s.curToken
  let s1 := nextToken s
  match skipToSemicolon fuel s1 with
  | none => none
  | some s2 => some (some ⟨tok, Expression.nilE⟩, s2)

/-- The nil test `stmt != nil` in ParseProgram compares the ast.Statement
interface value.  Every branch of parseStatement returns through a concrete
typed pointer, and a Go interface holding a typed nil pointer is itself non-nil,
so the comparison never sees nil: the test is false for no reachable value. -/
def stmtIsNilInterface : Statement → Bool
  | Statement.letS _ => false
  | Statement.returnS _ => false
  | Statement.exprS _ => false

/-- parseStatement (parser.go): dispatch on the current token kind; LET and
RETURN go to their routines (their possibly-nil typed pointers are wrapped into
the Statement interface), everything else becomes an expression statement. -/
def parseStatement (fuel : Nat) (s : ParserState) : Option (Statement × ParserState) :=
  if s.curToken.type = token.LET then
    let r := parseLetStatement s
    some (Statement.letS r.1, r.2)
  else if s.curToken.type = token.RETURN then
    match parseReturnStatement fuel s with
    | none => none
    | some (r, s1) => some (Statement.returnS r, s1)
  else
    match parseExpressionStatement fuel s with
    | none => none
    | some (st, s1) => some (Statement.exprS st, s1)

/-- The ParseProgram loop (parser.go lines 75-81): while the current token is
not EOF, parse one statement, append it when the interface nil test fails to
fire, then advance. -/
def parseProgramLoop : Nat → ParserState → List Statement → Option (Program × ParserState)
  | 0, _, _ => none
  | Nat.succ fuel, s, acc =>
    if s.curToken.type = token.EOF then some (⟨acc⟩, s)
    else
      match parseStatement fuel s with
      | none => none
      | some (stmt, s1) =>
        let acc1 := if stmtIsNilInterface stmt then acc else acc ++ [stmt]
        parseProgramLoop fuel (nextToken s1) acc1

/-- ParseProgram (parser.go): run the loop from an empty statement list. -/
def parseProgram (fuel : Nat) (s : ParserState) : Option (Program × ParserState) :=
  parseProgramLoop fuel s []

/-- New followed by ParseProgram on a given token stream. -/
def parseProgramRun (fuel : Nat) (toks : List Token) : Option (Program × ParserState) :=
  parseProgram fuel (initParser toks)

/-- The String method of the ast.Expression interface (ast.go).  Calling a
method on the nil interface, or on a node whose child call panics, is a runtime
panic, modelled as none.  PrefixExpression.String and InfixExpression.String
(ast.go lines 187-195 and 206-216) call their children unguarded; the leaf
nodes return their literal or value text. -/
def exprString : Expression → Option String
  | Expression.nilE => none
  | Expression.ident _ v => some v
  | Expression.intLit tok _ => some tok.literal
  | Expression.boolean tok _ => some tok.literal
  | Expression.prefixE _ op right =>
    match exprString right with
    | none => none
    | some rs => some ("(" ++ op ++ rs ++ ")")
  | Expression.infixE _ left op right =>
    match exprString left, exprString right with
    | some ls, some rs => some ("(" ++ ls ++ " " ++ op ++ " " ++ rs ++ ")")
    | _, _ => none

/-- LetStatement.String (ast.go): token literal, space, the Name (a nil Name
pointer would panic), an equals sign, the value only when non-nil, and a
semicolon. -/
def letStmtString (l : LetStmt) : Option String :=
  match l.name with
  | none => none
  | some n =>
    let vs :=
      match l.value with
      | Expression.nilE => some ""
      | v => exprString v
    match vs with
    | none => none
    | some v => some (l.tok.literal ++ " " ++ n.value ++ " = " ++ v ++ ";")

/-- ReturnStatement.String (ast.go): token literal, space, the value only when
non-nil, and a semicolon. -/
def returnStmtString (r : ReturnStmt) : Option String :=
  let vs :=
    match r.returnValue with
    | Expression.nilE => some ""
    | v => exprString v
  match vs with
  | none => none
  | some v => some (r.tok.literal ++ " " ++ v ++ ";")

/-- ExpressionStatement.String (ast.go): the expression when non-nil, else the
empty string. -/
def exprStmtString (e : ExpressionStmt) : Option String :=
  match e.expression with
  | Expression.nilE => some ""
  | v => exprString v

/-- The String method of a Statement interface value; a nil typed pointer
dereferences nil and panics. -/
def stmtString : Statement → Option String
  | Statement.letS none => none
  | Statement.letS (some l) => letStmtString l
  | Statement.returnS none => none
  | Statement.returnS (some r) => returnStmtString r
  | Statement.exprS e => exprStmtString e

/-- Concatenation of the statement strings, propagating a panic. -/
def stmtsString : List Statement → Option String
  | [] => some ""
  | st :: rest =>
    match stmtString st with
    | none => none
    | some s1 =>
      match stmtsString rest with
      | none => none
      | some s2 => some (s1 ++ s2)

/-- Program.String (ast.go): the concatenation of all statement strings. -/
def programString (p : Program) : Option String :=
  stmtsString p.statements

/-- Token stream of the source text `let x = 5;`. -/
def letx5Tokens : List Token :=
  [⟨token.LET, "let"⟩, ⟨token.IDENT, "x"⟩, ⟨token.ASSIGN, "="⟩,
   ⟨token.INT, "5"⟩, ⟨token.SEMICOLON, ";"⟩, ⟨token.EOF, ""⟩]

/-- Token stream of `let <ident> = <int>;` for arbitrary literals. -/
def letIdIntTokens (id lit : String) : List Token :=
  [⟨token.LET, "let"⟩, ⟨token.IDENT, id⟩, ⟨token.ASSIGN, "="⟩,
   ⟨token.INT, lit⟩, ⟨token.SEMICOLON, ";"⟩, ⟨token.EOF, ""⟩]

/-- Token stream of the malformed `let 5;` (identifier missing). -/
def let5Tokens : List Token :=
  [⟨token.LET, "let"⟩, ⟨token.INT, "5"⟩, ⟨token.SEMICOLON, ";"⟩, ⟨token.EOF, ""⟩]

/-- Token stream of `return 5;`. -/
def return5Tokens : List Token :=
  [⟨token.RETURN, "return"⟩, ⟨token.INT, "5"⟩, ⟨token.SEMICOLON, ";"⟩, ⟨token.EOF, ""⟩]

/-- Token stream of `return <int>;` for an arbitrary literal. -/
def returnIntTokens (lit : String) : List Token :=
  [⟨token.RETURN, "return"⟩, ⟨token.INT, lit⟩, ⟨token.SEMICOLON, ";"⟩, ⟨token.EOF, ""⟩]

/-- Token stream of `return 5` without the trailing semicolon. -/
def returnNoSemiTokens : List Token :=
  [⟨token.RETURN, "return"⟩, ⟨token.INT, "5"⟩, ⟨token.EOF, ""⟩]

/-- Token stream of the grouped expression `(5)`. -/
def groupedTokens : List Token :=
  [⟨token.LPAREN, "("⟩, ⟨token.INT, "5"⟩, ⟨token.RPAREN, ")"⟩, ⟨token.EOF, ""⟩]

/-- Token stream of `a + b + c`. -/
def abcTokens : List Token :=
  [⟨token.IDENT, "a"⟩, ⟨token.PLUS, "+"⟩, ⟨token.IDENT, "b"⟩,
   ⟨token.PLUS, "+"⟩, ⟨token.IDENT, "c"⟩, ⟨token.EOF, ""⟩]

/-- Token stream of `a + b * c + d / e - f`. -/
def bigTokens : List Token :=
  [⟨token.IDENT, "a"⟩, ⟨token.PLUS, "+"⟩, ⟨token.IDENT, "b"⟩,
   ⟨token.ASTERISK, "*"⟩, ⟨token.IDENT, "c"⟩, ⟨token.PLUS, "+"⟩,
   ⟨token.IDENT, "d"⟩, ⟨token.SLASH, "/"⟩, ⟨token.IDENT, "e"⟩,
   ⟨token.MINUS, "-"⟩, ⟨token.IDENT, "f"⟩, ⟨token.EOF, ""⟩]

/-- Token stream of `!;` (a bang with nothing to bind to). -/
def bangSemiTokens : List Token :=
  [⟨token.BANG, "!"⟩, ⟨token.SEMICOLON, ";"⟩, ⟨token.EOF, ""⟩]

/-- A parser state whose lookahead window holds token kinds absent from the
precedence table (used to witness the default-LOWEST lookups). -/
def defaultPrecState : ParserState :=
  ⟨[], ⟨token.SEMICOLON, ";"⟩, ⟨token.EOF, ""⟩, []⟩

/-- A parser state whose peek token is a semicolon while an identifier is
expected (used to witness the expectPeek failure path). -/
def mismatchState : ParserState :=
  ⟨[⟨token.EOF, ""⟩], ⟨token.LET, "let"⟩, ⟨token.SEMICOLON, ";"⟩, []⟩

/-- The parser state reached just after the RETURN keyword of the stream
`return 5` (no semicolon) has been passed: the skip loop starts here. -/
def returnStuckState : ParserState :=
  ⟨[], ⟨token.INT, "5"⟩, ⟨token.EOF, ""⟩, []⟩

/-- The primed parser state on the stream `return 5` (no semicolon). -/
def returnInitState : ParserState :=
  ⟨[⟨token.EOF, ""⟩], ⟨token.RETURN, "return"⟩, ⟨token.INT, "5"⟩, []⟩

/-- When no semicolon is in the lookahead window nor anywhere in the remaining
stream, the skip loop of parseReturnStatement fails for every fuel: the
exhausted token source keeps yielding EOF, so the Go loop runs forever. -/
theorem skipToSemicolon_never (n : Nat) (s : ParserState)
    (hc : s.curToken.type ≠ token.SEMICOLON)
    (hp : s.peekToken.type ≠ token.SEMICOLON)
    (ht : ∀ t ∈ s.tokens, t.type ≠ token.SEMICOLON) :
    skipToSemicolon n s = none := by
  induction n generalizing s with
  | zero => rfl
  | succ n ih =>
    rw [skipToSemicolon]
    rw [if_neg (by simp [curTokenIs, hc])]
    refine ih (nextToken s) (by simpa [nextToken] using hp) ?_ ?_
    · show (lexHead s.tokens).type ≠ token.SEMICOLON
      cases h : s.tokens with
      | nil => simp [lexHead, token.EOF, token.SEMICOLON]
      | cons a ts => exact (by simpa [lexHead] using ht a (by simp [h]))
    · intro t htm
      simp only [nextToken] at htm
      cases h : s.tokens with
      | nil =>
        rw [h] at htm
        simp [lexTail] at htm
      | cons a ts =>
        rw [h] at htm
        simp only [lexTail] at htm
        exact ht t (by simp [h, htm])

/-- A token kind that is not a key of the precedences map looks up to none. -/
theorem precedences_eq_none (t : TokenType) (h : t ∉ precKeys) :
    precedences t = none := by
  simp only [precKeys, List.mem_cons, List.not_mem_nil, or_false, not_or] at h
  obtain ⟨h1, h2, h3, h4, h5, h6, h7, h8⟩ := h
  simp [precedences, h1, h2, h3, h4, h5, h6, h7, h8]

/-- Claim C1, counterexample.  On the input `let x = 5;` the claim asserts that
Errors() is empty afterwards; in fact ParseProgram leaves exactly one
diagnostic, because parseLetStatement skips only one token past the assign
sign, so the trailing semicolon is parsed as an expression statement for whose
kind no prefix routine is registered. -/
theorem C1_counterexample :
    ((parseProgramRun 50 letx5Tokens).map fun r => r.2.errors) =
      some ["no prefix parse function for ; found"] ∧
    ("no prefix parse function for ; found" :: []) ≠ ([] : List String) :=
  ⟨rfl, List.cons_ne_nil _ _⟩

/-- Claim C1, amended.  For every input `let <ident> = <int>;`, ParseProgram
yields exactly one Let statement, whose name equals the identifier and whose
value is absent, followed by one empty expression statement for the stray
semicolon, and Errors() afterwards holds exactly the one no-prefix-parse
diagnostic for the semicolon kind. -/
theorem C1_amended (id lit : String) :
    ((parseProgramRun 50 (letIdIntTokens id lit)).map fun r =>
        (r.1.statements, r.2.errors)) =
      some ([Statement.letS (some ⟨⟨token.LET, "let"⟩,
               some ⟨⟨token.IDENT, id⟩, id⟩, Expression.nilE⟩),
             Statement.exprS ⟨⟨token.SEMICOLON, ";"⟩, Expression.nilE⟩],
            ["no prefix parse function for ; found"]) :=
  rfl

/-- Claim C2, counterexample.  The claim asserts that the parsed value
expression is stored as the Let statement value; on `let x = 5;` the Let
statement value is the nil expression, not the integer literal: the source
never parses the value (the TODO skip in parseLetStatement). -/
theorem C2_counterexample :
    ((parseProgramRun 50 letx5Tokens).map fun r => r.1.statements.head?) =
      some (some (Statement.letS (some ⟨⟨token.LET, "let"⟩,
        some ⟨⟨token.IDENT, "x"⟩, "x"⟩, Expression.nilE⟩))) ∧
    Expression.nilE ≠ Expression.intLit ⟨token.INT, "5"⟩ 5 :=
  ⟨rfl, by decide⟩

/-- Claim C2, amended.  For a well-formed let statement head, the parser
requires IDENT and the assign sign via expectPeek, does not parse the value
expression (the Value field stays nil), and then advances exactly one token:
the current token at the skip test is always the assign sign, never a
semicolon, so the conditional advance always fires.  No diagnostic is recorded
about a terminator. -/
theorem C2_amended (id : String) (t : Token) (rest : List Token)
    (errs : List String) :
    parseLetStatement
        ⟨⟨token.ASSIGN, "="⟩ :: t :: rest, ⟨token.LET, "let"⟩,
         ⟨token.IDENT, id⟩, errs⟩ =
      (some ⟨⟨token.LET, "let"⟩, some ⟨⟨token.IDENT, id⟩, id⟩, Expression.nilE⟩,
       ⟨lexTail rest, t, lexHead rest, errs⟩) :=
  rfl

/-- Claim C3.  The claim asserts ParseProgram terminates for every finite
token stream ending in the sentinel, in particular when a return statement
lacks its trailing semicolon.  On the stream of `return 5` (RETURN, INT, EOF)
the run fails for every fuel bound: the skip loop of parseReturnStatement only
stops on a semicolon, and the exhausted token source yields EOF forever, so the
Go loop never terminates. -/
theorem C3_return_without_semicolon_diverges (n : Nat) :
    parseProgramRun n returnNoSemiTokens = none := by
  match n with
  | 0 => rfl
  | Nat.succ m =>
    have hskip : skipToSemicolon m returnStuckState = none := by
      refine skipToSemicolon_never m returnStuckState (by decide) (by decide) ?_
      intro t htm
      simp [returnStuckState] at htm
    have hret : parseReturnStatement m returnInitState = none := by
      simp only [parseReturnStatement]
      rw [show nextToken returnInitState = returnStuckState from rfl]
      rw [hskip]
    have hstmt : parseStatement m returnInitState = none := by
      simp only [parseStatement]
      rw [if_neg (by decide), if_pos (by decide)]
      rw [hret]
    show parseProgramLoop (m + 1) (initParser returnNoSemiTokens) [] = none
    rw [show initParser returnNoSemiTokens = returnInitState from rfl]
    rw [parseProgramLoop]
    rw [if_neg (by decide)]
    rw [hstmt]

/-- Claim C4, counterexample.  The claim asserts that the return value
expression is parsed and stored in the Return node; on `return 5;` the Return
node value is the nil expression, not the integer literal: parseReturnStatement
only skips tokens until the semicolon and never assigns ReturnValue. -/
theorem C4_counterexample :
    ((parseProgramRun 50 return5Tokens).map fun r => (r.1.statements, r.2.errors)) =
      some ([Statement.returnS (some ⟨⟨token.RETURN, "return"⟩, Expression.nilE⟩)],
            []) ∧
    Expression.nilE ≠ Expression.intLit ⟨token.INT, "5"⟩ 5 :=
  ⟨rfl, by decide⟩

/-- Claim C4, amended.  For every `return <int>;` the parser produces one
Return statement whose value is absent (never parsed), consuming tokens up to
and including the semicolon, with no diagnostics; the semicolon is the loop
terminator and hence required, not optional (see the divergence theorem for
claim C3 when it is missing). -/
theorem C4_amended (lit : String) :
    ((parseProgramRun 50 (returnIntTokens lit)).map fun r =>
        (r.1.statements, r.2.errors)) =
      some ([Statement.returnS (some ⟨⟨token.RETURN, "return"⟩, Expression.nilE⟩)],
            []) :=
  rfl

/-- Claim C5, counterexample.  The claim asserts that a prefix routine is
registered for the group-opening parenthesis kind and that no
no-prefix-parse-function diagnostic is emitted for it; in fact the table built
by New holds no entry for that kind, and parsing `(5)` records the diagnostic
for it (and for the closing parenthesis). -/
theorem C5_counterexample :
    prefixParseFns token.LPAREN = none ∧
    ((parseProgramRun 50 groupedTokens).map fun r => r.2.errors) =
      some ["no prefix parse function for ( found",
            "no prefix parse function for ) found"] :=
  ⟨rfl, rfl⟩

/-- Claim C5, amended.  The prefix dispatch table built by New registers
routines exactly for the identifier, integer-literal, bang, minus, true and
false kinds; the parenthesis, if and function-literal kinds have no entry, so
an expression starting with one of them yields the nil expression and a
no-prefix-parse-function diagnostic (shown for `(5)`, whose first statement
carries a nil expression). -/
theorem C5_amended :
    (prefixParseFns token.LPAREN = none ∧ prefixParseFns token.IF = none ∧
     prefixParseFns token.FUNCTION = none) ∧
    (prefixParseFns token.IDENT = some PrefixFn.parseIdentifierFn ∧
     prefixParseFns token.INT = some PrefixFn.parseIntegerLiteralFn ∧
     prefixParseFns token.BANG = some PrefixFn.parsePrefixExpressionFn ∧
     prefixParseFns token.MINUS = some PrefixFn.parsePrefixExpressionFn ∧
     prefixParseFns token.TRUE = some PrefixFn.parseBooleanFn ∧
     prefixParseFns token.FALSE = some PrefixFn.parseBooleanFn) ∧
    ((parseProgramRun 50 groupedTokens).map fun r => r.1.statements.head?) =
      some (some (Statement.exprS ⟨⟨token.LPAREN, "("⟩, Expression.nilE⟩)) :=
  ⟨⟨rfl, rfl, rfl⟩, ⟨rfl, rfl, rfl, rfl, rfl, rfl⟩, rfl⟩

/-- Claim C6.  The precedence ordinals are strictly ordered LOWEST below EQUALS
below LESSGREATER below SUM below PRODUCT below the prefix level below CALL;
the table maps the eight registered operator kinds as listed; and both
precedence lookups return LOWEST for any token kind absent from the table. -/
theorem C6_precedence_table :
    (LOWEST < EQUALS ∧ EQUALS < LESSGREATER ∧ LESSGREATER < SUM ∧
     SUM < PRODUCT ∧ PRODUCT < PREFIX_PREC ∧ PREFIX_PREC < CALL) ∧
    (precedences token.EQ = some EQUALS ∧
     precedences token.NOT_EQ = some EQUALS ∧
     precedences token.LT = some LESSGREATER ∧
     precedences token.GT = some LESSGREATER ∧
     precedences token.PLUS = some SUM ∧
     precedences token.MINUS = some SUM ∧
     precedences token.ASTERISK = some PRODUCT ∧
     precedences token.SLASH = some PRODUCT) ∧
    (∀ s : ParserState, s.peekToken.type ∉ precKeys → peekPrecedence s = LOWEST) ∧
    (∀ s : ParserState, s.curToken.type ∉ precKeys → curPrecedence s = LOWEST) := by
  refine ⟨by decide, by decide, ?_, ?_⟩
  · intro s h
    simp [peekPrecedence, precedences_eq_none _ h]
  · intro s h
    simp [curPrecedence, precedences_eq_none _ h]

/-- Claim C6, witness: the default-LOWEST lookups at a state whose lookahead
window holds a semicolon and the sentinel, neither of which is a table key. -/
theorem C6_precedence_table_witness :
    peekPrecedence defaultPrecState = LOWEST ∧
    curPrecedence defaultPrecState = LOWEST :=
  ⟨C6_precedence_table.2.2.1 defaultPrecState (by decide),
   C6_precedence_table.2.2.2 defaultPrecState (by decide)⟩

/-- Claim C7.  Equal-precedence operators chain left-associatively and higher
precedence binds tighter: the canonical reconstruction of the parse of
`a + b + c` is `((a + b) + c)`, and of `a + b * c + d / e - f` is
`(((a + (b * c)) + (d / e)) - f)`, in both cases with no diagnostics. -/
theorem C7_left_associativity_and_precedence :
    ((parseProgramRun 99 abcTokens).map fun r => (programString r.1, r.2.errors)) =
      some (some "((a + b) + c)", []) ∧
    ((parseProgramRun 99 bigTokens).map fun r => (programString r.1, r.2.errors)) =
      some (some "(((a + (b * c)) + (d / e)) - f)", []) :=
  ⟨rfl, rfl⟩

/-- Claim C8.  For every state and expected kind: expectPeek reports success
exactly when the peek token matches the kind; on a match it advances the
lookahead window; on a mismatch it returns the state with the current token,
peek token and remaining stream unchanged and exactly one new diagnostic,
built from the expected and actual kinds, appended, together with failure. -/
theorem C8_expectPeek_contract (s : ParserState) (t : TokenType) :
    ((expectPeek t s).2 = true ↔ s.peekToken.type = t) ∧
    (s.peekToken.type = t → expectPeek t s = (nextToken s, true)) ∧
    (s.peekToken.type ≠ t →
      expectPeek t s =
        (⟨s.tokens, s.curToken, s.peekToken,
          s.errors ++ [peekErrorMsg t s]⟩, false)) := by
  by_cases h : s.peekToken.type = t
  · refine ⟨?_, fun _ => ?_, fun hn => absurd h hn⟩ <;>
      simp [expectPeek, peekTokenIs, h]
  · refine ⟨?_, fun he => absurd he h, fun _ => ?_⟩ <;>
      simp [expectPeek, peekTokenIs, h, peekError, pushError]

/-- Claim C8, witness: the failure branch at a concrete state expecting IDENT
while peeking a semicolon. -/
theorem C8_expectPeek_contract_witness :
    expectPeek token.IDENT mismatchState =
      (⟨mismatchState.tokens, mismatchState.curToken, mismatchState.peekToken,
        mismatchState.errors ++ [peekErrorMsg token.IDENT mismatchState]⟩, false) :=
  (C8_expectPeek_contract mismatchState token.IDENT).2.2 (by decide)

/-- Claim C9, counterexample.  The claim asserts that canonical String
reconstruction succeeds on every Program ParseProgram can return, including
Prefix nodes with absent children; in fact, on the parse of `!;` the returned
tree holds a Prefix node whose operand is nil, and its String reconstruction
panics (the modelled result is the none marker), because
PrefixExpression.String calls the child method unguarded. -/
theorem C9_counterexample :
    ((parseProgramRun 50 bangSemiTokens).map fun r => r.1.statements) =
      some [Statement.exprS ⟨⟨token.BANG, "!"⟩,
        Expression.prefixE ⟨token.BANG, "!"⟩ "!" Expression.nilE⟩] ∧
    ((parseProgramRun 50 bangSemiTokens).map fun r => (programString r.1).isSome) =
      some false :=
  ⟨rfl, rfl⟩

/-- Claim C9, amended.  String reconstruction tolerates absent children only in
Let, Return and ExpressionStatement nodes (their methods guard nil and render
the missing piece as empty); a Prefix node with an absent operand, or an Infix
node with an absent side, makes String panic, and such a tree is reachable from
ParseProgram (the parse of `!;`). -/
theorem C9_amended :
    (∀ tok : Token, ∀ op : String,
      exprString (Expression.prefixE tok op Expression.nilE) = none) ∧
    (∀ tok : Token, ∀ op : String, ∀ r : Expression,
      exprString (Expression.infixE tok Expression.nilE op r) = none) ∧
    (∀ tok tok2 : Token, ∀ op v : String,
      exprString (Expression.infixE tok (Expression.ident tok2 v) op
        Expression.nilE) = none) ∧
    letStmtString ⟨⟨token.LET, "let"⟩, some ⟨⟨token.IDENT, "x"⟩, "x"⟩,
      Expression.nilE⟩ = some "let x = ;" ∧
    returnStmtString ⟨⟨token.RETURN, "return"⟩, Expression.nilE⟩ =
      some "return ;" ∧
    (∀ tok : Token, exprStmtString ⟨tok, Expression.nilE⟩ = some "") ∧
    ((parseProgramRun 50 bangSemiTokens).map fun r => programString r.1) =
      some none :=
  ⟨fun _ _ => rfl, fun _ _ _ => rfl, fun _ _ _ _ => rfl, rfl, rfl,
   fun _ => rfl, rfl⟩

/-- Claim C10, counterexample.  The claim asserts that null results of
parseStatement are filtered out, so the statements sequence holds no null
entry; on the malformed `let 5;` the failed let parse returns a nil typed
pointer which the interface nil test does not catch, so the first statement
entry is the nil Let pointer — a null entry whose String method would panic. -/
theorem C10_counterexample :
    ((parseProgramRun 50 let5Tokens).map fun r => (r.1.statements, r.2.errors)) =
      some ([Statement.letS none,
             Statement.exprS ⟨⟨token.INT, "5"⟩,
               Expression.intLit ⟨token.INT, "5"⟩ 5⟩],
            ["Expected token IDENT -- Got INT"]) ∧
    stmtString (Statement.letS none) = none :=
  ⟨rfl, rfl⟩

/-- Claim C10, amended.  ParseProgram always returns a Program with a
well-defined (possibly empty) statements sequence, and on an input whose first
token is the sentinel it returns an empty Program with no diagnostics; but the
nil filter in the loop can never fire (every parseStatement result is a typed
interface value, never the nil interface), so a failed let or return parse is
appended as a nil typed pointer rather than being dropped. -/
theorem C10_amended :
    (∀ st : Statement, stmtIsNilInterface st = false) ∧
    parseProgramRun 50 [⟨token.EOF, ""⟩] =
      some (⟨[]⟩, ⟨[], ⟨token.EOF, ""⟩, ⟨token.EOF, ""⟩, []⟩) ∧
    ((parseProgramRun 50 let5Tokens).map fun r => r.1.statements.head?) =
      some (some (Statement.letS none)) := by
  refine ⟨fun st => ?_, rfl, rfl⟩
  cases st <;> rfl
